import Mathlib

/-!
Shallow embedding of `src/api_trt/modules/processing.py` (InsightFace-REST):
the `Serializer` class, the `serialize_face` function, and the
`Processing.embed_crops` / `Processing.embed` / `Processing.extract`
orchestration methods.

Modelling conventions:
* Python `float` values (scores, norms, probabilities, box coordinates)
  are modelled as `Rat`.
* Python truthiness tests on optional floats (`if face.det_score:` etc.)
  are modelled by `truthy`: `None` and `0` are falsy, everything else truthy.
* A raised Python exception is modelled as `Except.error tb` where `tb` is
  the diagnostic trace string produced by `traceback.format_exc()`.
* The external face-analysis model (`self.model.get`, `self.model.process_faces`)
  and the external image codec are parameters of the orchestration functions.
* Wall-clock timings (`time.time()` differences) are nondeterministic and
  irrelevant to the verified properties; they are modelled as `0`.
-/

namespace IFR

/-- Python truthiness of an optional float: `None` and `0.0` are falsy. -/
def truthy : Option Rat → Bool
  | none => false
  | some q => q != 0

/-- Truncation toward zero, as performed by `int(x)` and numpy `astype(int)`
on a real value: for a rational `q` with positive denominator this is
T-division of the numerator by the denominator. -/
def truncToInt (q : Rat) : Int :=
  Int.tdiv q.num (q.den : Int)

/-- Modelled from the spec: the face container class `Face` lives in
`face_model.py`, which is not part of the analysed sources; its attributes
follow §3 "DetectedFace" of the specification (detection index, optional
detection score, optional bounding box of 4 numeric coordinates, optional
5-point landmark set, optional age, optional gender, optional mask-wearing
probability, optional embedding vector paired with its norm, optional raw
cropped face pixel data, here an opaque `String` payload). -/
structure Face where
  num_det : Nat
  det_score : Option Rat
  bbox : Option (Rat × Rat × Rat × Rat)
  landmark : Option (List (Rat × Rat))
  gender : Option Nat
  age : Option Nat
  mask_prob : Option Rat
  embedding : Option (List Rat × Rat)
  facedata : Option String
  deriving Repr, DecidableEq

/-- The flat response dictionary built by `serialize_face`: every key the
function can ever insert, with `none` for an absent/null value.  The
`facedata` key is only inserted when `return_face_data` is set; its absence
is likewise modelled as `none`. -/
structure FaceRecord where
  det : Nat
  prob : Option Rat
  bbox : Option (List Int)
  size : Option Int
  landmarks : Option (List (Int × Int))
  gender : Option Nat
  age : Option Nat
  mask_prob : Option Rat
  norm : Option Rat
  vec : Option (List Rat)
  facedata : Option String
  deriving Repr, DecidableEq

/-- Modelled from the spec: `cv2.imencode('.jpg', ...)` followed by
`base64.b64encode(...).decode('utf-8')` belongs to external collaborators
(image codec, base64); modelled as an abstract text encoding of the opaque
pixel payload. -/
def encodeFaceData (d : String) : String :=
  "b64jpeg:" ++ d

/-- The initial `_face_dict` literal of `serialize_face`
(processing.py lines 42-53): gender and age verbatim, every other optional
key null. -/
def initRecord (face : Face) : FaceRecord :=
  { det := face.num_det, prob := none, bbox := none, size := none,
    landmarks := none, gender := face.gender, age := face.age,
    mask_prob := none, norm := none, vec := none, facedata := none }

/-- `if face.embedding_norm: _face_dict.update(vec=..., norm=...)` (lines
55-57): Python truthiness, so an absent embedding or a zero norm leaves
the dict unchanged. -/
def updateEmbedding (face : Face) (d : FaceRecord) : FaceRecord :=
  match face.embedding with
  | some (v, n) => if n = 0 then d else { d with vec := some v, norm := some n }
  | none => d

/-- `if face.det_score: _face_dict.update(prob=..., bbox=..., size=...)`
plus the nested `return_landmarks` update (lines 59-67): Python
truthiness on the score; `face.bbox.astype(int)` and
`face.landmark.astype(int)` raise when the array is absent. -/
def updateDet (face : Face) (return_landmarks : Bool) (d : FaceRecord) :
    Except String FaceRecord :=
  if truthy face.det_score then
    match face.bbox with
    | none => .error "AttributeError: NoneType object has no attribute astype"
    | some (x1, y1, x2, y2) =>
      let d2 : FaceRecord :=
        { d with prob := face.det_score,
                 bbox := some [truncToInt x1, truncToInt y1, truncToInt x2, truncToInt y2],
                 size := some (truncToInt (x2 - x1)) }
      if return_landmarks then
        match face.landmark with
        | none => .error "AttributeError: NoneType object has no attribute astype"
        | some lms =>
          .ok { d2 with landmarks := some (lms.map (fun p => (truncToInt p.1, truncToInt p.2))) }
      else
        .ok d2
  else
    .ok d

/-- `if face.mask_prob: _face_dict.update(mask_prob=...)` (lines 69-70):
Python truthiness, so an absent or zero mask probability leaves the dict
unchanged. -/
def updateMask (face : Face) (d : FaceRecord) : FaceRecord :=
  match face.mask_prob with
  | some m => if m = 0 then d else { d with mask_prob := some m }
  | none => d

/-- `if return_face_data: _face_dict.update(facedata=...)` (lines 72-76):
encoding a missing pixel buffer raises. -/
def updateFaceData (face : Face) (return_face_data : Bool) (d : FaceRecord) :
    Except String FaceRecord :=
  if return_face_data then
    match face.facedata with
    | none => .error "cv2.error: imencode on NoneType"
    | some fd => .ok { d with facedata := some (encodeFaceData fd) }
  else
    .ok d

/-- `serialize_face(face, return_face_data, return_landmarks)`
(processing.py lines 41-78): the sequential dict updates above, in source
order.  Returns `.error tb` when the Python code would raise. -/
def serializeFace (face : Face) (return_face_data : Bool) (return_landmarks : Bool) :
    Except String FaceRecord :=
  match updateDet face return_landmarks (updateEmbedding face (initRecord face)) with
  | .error e => .error e
  | .ok d2 => updateFaceData face return_face_data (updateMask face d2)

/-- One item of a loaded batch, as produced by the external image loader:
either a decoded (opaque) image payload or a captured load-failure trace
(`image.get('traceback')`). -/
structure ImageInput where
  traceback : Option String
  data : Option String
  deriving Repr, DecidableEq

/-- One entry of `output['data']` in `Processing.embed`. -/
structure PerImageResult where
  status : String
  took_ms : Rat
  faces : List FaceRecord
  traceback : Option String
  deriving Repr, DecidableEq

/-- The `output['took']` sub-dictionary of the batch envelope; keys absent
from the Python dict are `none`. -/
structure Took where
  total_ms : Option Rat
  read_imgs_ms : Option Rat
  embed_all_ms : Option Rat
  deriving Repr, DecidableEq

/-- The batch envelope built by `Processing.embed` (and completed by
`Processing.extract`). -/
structure BatchOutput where
  took : Took
  data : List PerImageResult
  deriving Repr, DecidableEq

/-- The `for idx, face in enumerate(faces)` loop body of `Processing.embed`
(lines 155-158): serialize faces in order, appending each record; the first
raised exception stops the loop and is returned with the records appended
so far. -/
def serializeFacesLoop (rfd rlm : Bool) : List Face → List FaceRecord →
    List FaceRecord × Option String
  | [], acc => (acc, none)
  | f :: rest, acc =>
    match serializeFace f rfd rlm with
    | .ok r => serializeFacesLoop rfd rlm rest (acc ++ [r])
    | .error tb => (acc, some tb)

/-- The per-image body of the `for image_data in images` loop of
`Processing.embed` (lines 142-169): load failures short-circuit; otherwise
the external model is called and each returned face serialized; any raised
exception is caught and turns this image's entry into a `failed` one,
keeping the records appended before the exception and the initial
`took_ms` of `0`. -/
def embedOne (modelGet : Option String → Except String (List Face))
    (rfd rlm : Bool) (image_data : ImageInput) : PerImageResult :=
  match image_data.traceback with
  | some tb => { status := "failed", took_ms := 0, faces := [], traceback := some tb }
  | none =>
    match modelGet image_data.data with
    | .error tb => { status := "failed", took_ms := 0, faces := [], traceback := some tb }
    | .ok faces =>
      match serializeFacesLoop rfd rlm faces [] with
      | (recs, some tb) => { status := "failed", took_ms := 0, faces := recs, traceback := some tb }
      | (recs, none) => { status := "ok", took_ms := 0, faces := recs, traceback := none }

/-- `Processing.embed` (lines 135-170): iterate the input images in order,
appending one `PerImageResult` per image; `output['took']` starts empty. -/
def embed (modelGet : Option String → Except String (List Face))
    (rfd rlm : Bool) (images : List ImageInput) : BatchOutput :=
  { took := { total_ms := none, read_imgs_ms := none, embed_all_ms := none },
    data := images.map (embedOne modelGet rfd rlm) }

/-- The two wire shapes produced by `Serializer.serialize`: the legacy v1
projection (one faces list per input image) or the v2 pass-through. -/
inductive SerializedResponse where
  | v1 (faces : List (List FaceRecord))
  | v2 (batch : BatchOutput)
  deriving Repr, DecidableEq

/-- `Serializer._serializer_v1` (lines 30-33): project the envelope down to
`[img.get('faces') for img in data.get('data', [])]`. -/
def serializerV1 (data : BatchOutput) : List (List FaceRecord) :=
  data.data.map PerImageResult.faces

/-- `Serializer._serializer_v2` (lines 35-38): the identity. -/
def serializerV2 (data : BatchOutput) : BatchOutput :=
  data

/-- `Serializer.serialize` with `Serializer.get_serializer` (lines 20-28):
version string `"1"` selects the v1 projection, anything else the v2
identity. -/
def serialize (data : BatchOutput) (api_ver : String) : SerializedResponse :=
  if api_ver = "1" then .v1 (serializerV1 data) else .v2 (serializerV2 data)

/-- One item of `output['data']` in `Processing.embed_crops`: either a full
`FaceRecord` dict or a `dict(status='failed', traceback=...)` for an input
image that failed to load. -/
inductive CropItem where
  | record (r : FaceRecord)
  | failedImage (tb : String)
  deriving Repr, DecidableEq

/-- The envelope returned by `Processing.embed_crops`: top-level `took_ms`,
flat `data` list, top-level `status`, and a top-level `traceback` key only
present after a caught exception. -/
structure CropsOutput where
  took_ms : Rat
  data : List CropItem
  status : String
  traceback : Option String
  deriving Repr, DecidableEq

/-- `Processing.__iterate_faces` (lines 101-105): the faces handed to the
bulk model call, one `Face(facedata=...)` per input image that carries no
load failure (unlisted `Face` attributes default to absent, as in §3). -/
def iterateFaces (images : List ImageInput) : List Face :=
  images.filterMap fun img =>
    match img.traceback with
    | some _ => none
    | none => some { num_det := 0, det_score := none, bbox := none, landmark := none,
                     gender := none, age := none, mask_prob := none, embedding := none,
                     facedata := img.data }

/-- The `for image in images` loop of `Processing.embed_crops`
(lines 116-129) over the lazily produced analyzed-face stream.  The stream
is the sequence of outcomes of successive `next(faces)` calls: `.ok face`
yields an analyzed face, `.error tb` models an exception raised inside the
generator, and an exhausted stream raises `StopIteration`.  The first
exception anywhere (including inside `serialize_face`) stops the loop and
is returned together with the items appended before it. -/
def embedCropsLoop : List ImageInput → List (Except String Face) → List CropItem →
    List CropItem × Option String
  | [], _, acc => (acc, none)
  | { traceback := some tb, data := _ } :: rest, stream, acc =>
    embedCropsLoop rest stream (acc ++ [.failedImage tb])
  | { traceback := none, data := _ } :: rest, stream, acc =>
    match stream with
    | [] => (acc, some "StopIteration")
    | .error tb :: _ => (acc, some tb)
    | .ok face :: rest' =>
      match serializeFace face false false with
      | .ok r => embedCropsLoop rest rest' (acc ++ [.record r])
      | .error tb => (acc, some tb)

/-- `Processing.embed_crops` (lines 107-133): build the lazy analyzed-face
stream via the external `process_faces`, consume it against the input list,
and on any caught exception mark the whole output `failed` with the trace,
keeping the items accumulated so far. -/
def embedCrops (processFaces : List Face → List (Except String Face))
    (images : List ImageInput) : CropsOutput :=
  let stream := processFaces (iterateFaces images)
  match embedCropsLoop images stream [] with
  | (items, none) => { took_ms := 0, data := items, status := "ok", traceback := none }
  | (items, some tb) => { took_ms := 0, data := items, status := "failed", traceback := some tb }

/-- The value returned by `Processing.extract`: either the raw
`embed_crops` envelope (embed-only mode, returned without serialization)
or a serialized batch envelope. -/
inductive ExtractResponse where
  | crops (c : CropsOutput)
  | serialized (s : SerializedResponse)
  deriving Repr, DecidableEq

/-- `Processing.extract` (lines 172-206) after the external image loader
has produced `images` (the loader, `get_images`, is an external
collaborator that captures its own failures per §6).  In embed-only mode
the `embed_crops` envelope is returned directly; otherwise the `embed`
envelope gets its `took` timings (sub-timings only under
`verbose_timings`) and is passed through the serializer. -/
def extract (processFaces : List Face → List (Except String Face))
    (modelGet : Option String → Except String (List Face))
    (images : List ImageInput) (embed_only rfd rlm verbose_timings : Bool)
    (api_ver : String) : ExtractResponse :=
  if embed_only then
    .crops (embedCrops processFaces images)
  else
    let output := embed modelGet rfd rlm images
    let took : Took :=
      { total_ms := some 0,
        read_imgs_ms := if verbose_timings then some 0 else none,
        embed_all_ms := if verbose_timings then some 0 else none }
    .serialized (serialize { output with took := took } api_ver)

/-- Well-formedness of one batch entry: an explicit `ok`/`failed` status
tag, with a diagnostic trace exactly when failed. -/
def PerImageResult.wf (r : PerImageResult) : Bool :=
  (r.status == "ok" && r.traceback == none) || (r.status == "failed" && r.traceback.isSome)

/-- Well-formedness of the batch envelope: every entry is status-tagged. -/
def BatchOutput.wf (o : BatchOutput) : Bool :=
  o.data.all PerImageResult.wf

/-- Well-formedness of the embed-crops envelope: an explicit top-level
`ok`/`failed` status, with a trace exactly when failed. -/
def CropsOutput.wf (o : CropsOutput) : Bool :=
  (o.status == "ok" && o.traceback == none) || (o.status == "failed" && o.traceback.isSome)

/-- Well-formedness of an extract response value. -/
def ExtractResponse.wf : ExtractResponse → Bool
  | .crops c => c.wf
  | .serialized (.v2 b) => b.wf
  | .serialized (.v1 _) => true

/-! Shared helper lemmas. -/

/-- The batch output list is the per-image map of the input list, entry by
entry. -/
lemma embed_data_getElem? (m : Option String → Except String (List Face))
    (rfd rlm : Bool) (images : List ImageInput) (i : Nat) :
    (embed m rfd rlm images).data[i]? = (images[i]?).map (embedOne m rfd rlm) := by
  simp [embed]

/-! Claim theorems. -/

/-- Claim C1: for every submitted batch, the orchestrator's output list is
positionally aligned with the input list: the output has one entry per
input image, and for every index `i`, `output.data[i]` is exactly the
per-image result of input image `i` — also when some inputs carry a load
failure (no hypothesis excludes them). -/
theorem embed_ordering (m : Option String → Except String (List Face))
    (rfd rlm : Bool) (images : List ImageInput) :
    (embed m rfd rlm images).data.length = images.length ∧
    ∀ i : Nat, (embed m rfd rlm images).data[i]? = (images[i]?).map (embedOne m rfd rlm) := by
  refine ⟨by simp [embed], fun i => embed_data_getElem? m rfd rlm images i⟩

/-- Claim C5: `serialize batch "2"` is the identity embedding of the batch,
and `serialize batch "1"` is exactly the ordered, count-preserving
projection `[pi.faces for pi in batch.data]`. -/
theorem serialize_v2_identity_v1_projection (batch : BatchOutput) :
    serialize batch "2" = .v2 batch ∧
    serialize batch "1" = .v1 (batch.data.map PerImageResult.faces) ∧
    (serializerV1 batch).length = batch.data.length ∧
    ∀ i : Nat, (serializerV1 batch)[i]? = (batch.data[i]?).map PerImageResult.faces := by
  refine ⟨by simp [serialize, serializerV2], by simp [serialize, serializerV1], by
    simp [serializerV1], fun i => by simp [serializerV1]⟩

/-- Claim C6: every API-version string other than `"1"` and `"2"` selects
the same serializer as version `"2"`. -/
theorem serialize_unknown_version (batch : BatchOutput) (v : String)
    (h1 : v ≠ "1") (h2 : v ≠ "2") :
    serialize batch v = serialize batch "2" := by
  simp [serialize, h1]

/-- Witness for C6 at version string `"3"`. -/
theorem serialize_unknown_version_witness :
    serialize { took := { total_ms := none, read_imgs_ms := none, embed_all_ms := none },
                data := [] } "3" =
      serialize { took := { total_ms := none, read_imgs_ms := none, embed_all_ms := none },
                  data := [] } "2" :=
  serialize_unknown_version _ "3" (by decide) (by decide)

/-- Claim C10: in embed-only mode, `extract` returns the `embed_crops`
envelope directly (top-level `status` and `took_ms`, flat `data` list —
the `CropsOutput` shape has no `took` breakdown), bypassing the response
serializer: the result does not depend on the API-version string or on the
verbose-timings flag. -/
theorem extract_embed_only_bypasses_serializer
    (pf : List Face → List (Except String Face))
    (m : Option String → Except String (List Face))
    (images : List ImageInput) (rfd rlm vt : Bool) (ver : String) :
    extract pf m images true rfd rlm vt ver = .crops (embedCrops pf images) := by
  simp [extract]

/-- A raised exception in the model call yields a failed per-image entry
carrying the trace. -/
lemma embedOne_model_error (m : Option String → Except String (List Face))
    (rfd rlm : Bool) (img : ImageInput) (tb : String)
    (hload : img.traceback = none) (hm : m img.data = .error tb) :
    embedOne m rfd rlm img =
      { status := "failed", took_ms := 0, faces := [], traceback := some tb } := by
  simp [embedOne, hload, hm]

/-- A raised exception while building face records yields a failed
per-image entry carrying the trace and the records built before it. -/
lemma embedOne_record_error (m : Option String → Except String (List Face))
    (rfd rlm : Bool) (img : ImageInput) (tb : String) (faces : List Face)
    (recs : List FaceRecord)
    (hload : img.traceback = none) (hm : m img.data = .ok faces)
    (hs : serializeFacesLoop rfd rlm faces [] = (recs, some tb)) :
    embedOne m rfd rlm img =
      { status := "failed", took_ms := 0, faces := recs, traceback := some tb } := by
  simp [embedOne, hload, hm, hs]

/-- Claim C2: in the batch path, an exception raised while processing one
image — in the model call or while building its face records — is caught:
that image's entry has status `failed` and carries the diagnostic trace,
while every other index `j` still holds exactly the per-image result of
input `j`, unaffected by the failure. -/
theorem embed_failure_isolation (m : Option String → Except String (List Face))
    (rfd rlm : Bool) (images : List ImageInput) (i : Nat) (img : ImageInput)
    (tb : String)
    (himg : images[i]? = some img)
    (hload : img.traceback = none)
    (hfail : m img.data = .error tb ∨
      ∃ faces recs, m img.data = .ok faces ∧
        serializeFacesLoop rfd rlm faces [] = (recs, some tb)) :
    (∃ ri, (embed m rfd rlm images).data[i]? = some ri ∧
      ri.status = "failed" ∧ ri.traceback = some tb) ∧
    ∀ j : Nat, j ≠ i →
      (embed m rfd rlm images).data[j]? = (images[j]?).map (embedOne m rfd rlm) := by
  refine ⟨⟨embedOne m rfd rlm img, ?_, ?_⟩,
    fun j _ => embed_data_getElem? m rfd rlm images j⟩
  · rw [embed_data_getElem?, himg]
    rfl
  · rcases hfail with hm | ⟨faces, recs, hm, hs⟩
    · rw [embedOne_model_error m rfd rlm img tb hload hm]
      exact ⟨rfl, rfl⟩
    · rw [embedOne_record_error m rfd rlm img tb faces recs hload hm hs]
      exact ⟨rfl, rfl⟩

/-- Witness for C2: a one-image batch whose model call raises. -/
theorem embed_failure_isolation_witness :
    (∃ ri, (embed (fun _ => .error "boom") true true
        [{ traceback := none, data := some "img0" }]).data[0]? = some ri ∧
      ri.status = "failed" ∧ ri.traceback = some "boom") ∧
    ∀ j : Nat, j ≠ 0 →
      (embed (fun _ => .error "boom") true true
          [{ traceback := none, data := some "img0" }]).data[j]? =
        (([{ traceback := none, data := some "img0" }] :
            List ImageInput)[j]?).map (embedOne (fun _ => .error "boom") true true) :=
  embed_failure_isolation (fun _ => .error "boom") true true
    [{ traceback := none, data := some "img0" }] 0
    { traceback := none, data := some "img0" } "boom" rfl rfl (Or.inl rfl)

/-- Every per-image entry built by the batch loop body is status-tagged,
with a trace exactly when failed. -/
lemma embedOne_wf (m : Option String → Except String (List Face))
    (rfd rlm : Bool) (img : ImageInput) :
    (embedOne m rfd rlm img).wf = true := by
  unfold embedOne
  rcases img.traceback with _ | tb
  · rcases m img.data with tb | faces
    · simp [PerImageResult.wf]
    · rcases hs : serializeFacesLoop rfd rlm faces [] with ⟨recs, err⟩
      rcases err with _ | tb <;> simp [PerImageResult.wf, hs]
  · simp [PerImageResult.wf]

/-- The batch envelope is always well-formed. -/
lemma embed_wf (m : Option String → Except String (List Face))
    (rfd rlm : Bool) (images : List ImageInput) :
    (embed m rfd rlm images).wf = true := by
  simp only [BatchOutput.wf, embed, List.all_eq_true]
  intro r hr
  rcases List.mem_map.mp hr with ⟨img, _, rfl⟩
  exact embedOne_wf m rfd rlm img

/-- The embed-crops envelope is always well-formed. -/
lemma embedCrops_wf (pf : List Face → List (Except String Face))
    (images : List ImageInput) :
    (embedCrops pf images).wf = true := by
  unfold embedCrops
  rcases hL : embedCropsLoop images (pf (iterateFaces images)) [] with ⟨items, err⟩
  rcases err with _ | tb <;> simp [CropsOutput.wf, hL]

/-- Claim C3: no exception escapes to the caller of `embed`, `embed_crops`
or `extract`: each operation is a total function into response values
(never an `Except`), and every response is well-formed — all statuses are
explicitly `ok` or `failed`, with a diagnostic trace exactly when
failed. -/
theorem no_exception_escapes (m : Option String → Except String (List Face))
    (pf : List Face → List (Except String Face)) (images : List ImageInput)
    (rfd rlm eo vt : Bool) (ver : String) :
    (embed m rfd rlm images).wf = true ∧
    (embedCrops pf images).wf = true ∧
    (extract pf m images eo rfd rlm vt ver).wf = true := by
  refine ⟨embed_wf m rfd rlm images, embedCrops_wf pf images, ?_⟩
  unfold extract
  rcases eo with _ | _
  · simp only [Bool.false_eq_true, if_false]
    unfold serialize
    rcases hv : decide (ver = "1") with _ | _
    · simp only [decide_eq_false_iff_not] at hv
      simp only [if_neg hv]
      show BatchOutput.wf _ = true
      simp only [BatchOutput.wf, serializerV2]
      have h := embed_wf m rfd rlm images
      simpa [BatchOutput.wf, embed] using h
    · simp only [decide_eq_true_eq] at hv
      simp [if_pos hv, ExtractResponse.wf]
  · simpa [ExtractResponse.wf] using embedCrops_wf pf images

/-- The embedding update touches only `vec` and `norm`. -/
lemma updateEmbedding_keeps (face : Face) (d : FaceRecord) :
    (updateEmbedding face d).prob = d.prob ∧ (updateEmbedding face d).bbox = d.bbox ∧
    (updateEmbedding face d).size = d.size ∧
    (updateEmbedding face d).landmarks = d.landmarks ∧
    (updateEmbedding face d).mask_prob = d.mask_prob := by
  unfold updateEmbedding
  repeat' split
  all_goals simp

/-- A zero embedding norm leaves the dict unchanged (Python truthiness). -/
lemma updateEmbedding_zero_norm (face : Face) (d : FaceRecord) (v : List Rat)
    (h : face.embedding = some (v, 0)) :
    updateEmbedding face d = d := by
  simp [updateEmbedding, h]

/-- An absent embedding leaves the dict unchanged. -/
lemma updateEmbedding_none (face : Face) (d : FaceRecord)
    (h : face.embedding = none) :
    updateEmbedding face d = d := by
  simp [updateEmbedding, h]

/-- The mask update touches only `mask_prob`. -/
lemma updateMask_keeps (face : Face) (d : FaceRecord) :
    (updateMask face d).prob = d.prob ∧ (updateMask face d).bbox = d.bbox ∧
    (updateMask face d).size = d.size ∧ (updateMask face d).landmarks = d.landmarks ∧
    (updateMask face d).vec = d.vec ∧ (updateMask face d).norm = d.norm := by
  unfold updateMask
  repeat' split
  all_goals simp

/-- A zero mask probability leaves the dict unchanged (Python truthiness). -/
lemma updateMask_zero (face : Face) (d : FaceRecord) (h : face.mask_prob = some 0) :
    updateMask face d = d := by
  simp [updateMask, h]

/-- The face-data update, when it succeeds, touches only `facedata`. -/
lemma updateFaceData_ok_keeps (face : Face) (rfd : Bool) (d r : FaceRecord)
    (h : updateFaceData face rfd d = .ok r) :
    r.prob = d.prob ∧ r.bbox = d.bbox ∧ r.size = d.size ∧
    r.landmarks = d.landmarks ∧ r.vec = d.vec ∧ r.norm = d.norm ∧
    r.mask_prob = d.mask_prob := by
  unfold updateFaceData at h
  repeat' split at h
  all_goals first
    | (simp only [Except.ok.injEq] at h; subst h; simp)
    | (cases h)

/-- A falsy detection score (absent or zero) skips the whole detection
update. -/
lemma updateDet_not_truthy (face : Face) (rlm : Bool) (d : FaceRecord)
    (h : truthy face.det_score = false) :
    updateDet face rlm d = .ok d := by
  simp [updateDet, h]

/-- The detection update, when it succeeds, touches none of `vec`, `norm`,
`mask_prob`. -/
lemma updateDet_ok_keeps (face : Face) (rlm : Bool) (d r : FaceRecord)
    (h : updateDet face rlm d = .ok r) :
    r.vec = d.vec ∧ r.norm = d.norm ∧ r.mask_prob = d.mask_prob := by
  unfold updateDet at h
  repeat' split at h
  all_goals first
    | (simp only [Except.ok.injEq] at h; subst h; simp)
    | (cases h)

/-- With a truthy detection score and a bounding box, a successful
detection update emits the score, the truncated box, and the truncated
width as `size`. -/
lemma updateDet_truthy_fields (face : Face) (rlm : Bool) (d r : FaceRecord)
    (x1 y1 x2 y2 : Rat)
    (ht : truthy face.det_score = true)
    (hb : face.bbox = some (x1, y1, x2, y2))
    (h : updateDet face rlm d = .ok r) :
    r.prob = face.det_score ∧
    r.bbox = some [truncToInt x1, truncToInt y1, truncToInt x2, truncToInt y2] ∧
    r.size = some (truncToInt (x2 - x1)) := by
  simp only [updateDet, ht, hb, if_true] at h
  repeat' split at h
  all_goals first
    | (simp only [Except.ok.injEq] at h; subst h; simp)
    | (cases h)

/-- A successful `serialize_face` factors into a successful detection
update followed by the mask and face-data updates. -/
lemma serializeFace_ok_chain (face : Face) (rfd rlm : Bool) (r : FaceRecord)
    (h : serializeFace face rfd rlm = .ok r) :
    ∃ d2, updateDet face rlm (updateEmbedding face (initRecord face)) = .ok d2 ∧
      updateFaceData face rfd (updateMask face d2) = .ok r := by
  unfold serializeFace at h
  rcases hD : updateDet face rlm (updateEmbedding face (initRecord face)) with e | d2
  · rw [hD] at h
    cases h
  · rw [hD] at h
    exact ⟨d2, rfl, h⟩

/-- Claim C4: a `DetectedFace` carrying no detection score produces a
`FaceRecord` with `prob`, `bbox`, `size` and `landmarks` all null,
whatever the `return_face_data` / `return_landmarks` flags and the other
optional attributes are. -/
theorem serialize_face_no_score (face : Face) (rfd rlm : Bool) (r : FaceRecord)
    (hscore : face.det_score = none)
    (h : serializeFace face rfd rlm = .ok r) :
    r.prob = none ∧ r.bbox = none ∧ r.size = none ∧ r.landmarks = none := by
  obtain ⟨d2, hD, hF⟩ := serializeFace_ok_chain face rfd rlm r h
  have ht : truthy face.det_score = false := by rw [hscore]; rfl
  rw [updateDet_not_truthy face rlm _ ht] at hD
  obtain rfl : updateEmbedding face (initRecord face) = d2 := by
    cases hD
    rfl
  obtain ⟨hp, hb, hs, hl, _, _, _⟩ := updateFaceData_ok_keeps face rfd _ r hF
  obtain ⟨mp, mb, ms, ml, _, _⟩ :=
    updateMask_keeps face (updateEmbedding face (initRecord face))
  obtain ⟨ep, eb, es, el, _⟩ := updateEmbedding_keeps face (initRecord face)
  refine ⟨?_, ?_, ?_, ?_⟩ <;> simp_all [initRecord]

/-- Concrete face for the C4 witness: no detection score, every other
optional attribute populated. -/
def c4face : Face :=
  { num_det := 0, det_score := none, bbox := some (10, 10, 50, 60),
    landmark := some [(1, 2)], gender := some 1, age := some 33,
    mask_prob := some 1, embedding := some ([1], 1), facedata := some "f" }

/-- The record `serialize_face` produces for `c4face` with both flags
set. -/
def c4rec : FaceRecord :=
  { det := 0, prob := none, bbox := none, size := none, landmarks := none,
    gender := some 1, age := some 33, mask_prob := some 1, norm := some 1,
    vec := some [1], facedata := some "b64jpeg:f" }

/-- Witness for C4: a score-less face with both flags set and all other
attributes populated still yields null `prob`, `bbox`, `size`,
`landmarks`. -/
theorem serialize_face_no_score_witness :
    c4face.det_score = none ∧ serializeFace c4face true true = .ok c4rec ∧
    (c4rec.prob = none ∧ c4rec.bbox = none ∧ c4rec.size = none ∧
      c4rec.landmarks = none) :=
  ⟨rfl, by with_unfolding_all rfl,
    serialize_face_no_score c4face true true c4rec rfl (by with_unfolding_all rfl)⟩

/-- Claim C7: for a face with a (truthy) detection score and a bounding
box, the emitted record's `size` is the box width `x2 - x1` truncated to
an integer. -/
theorem serialize_face_size (face : Face) (rfd rlm : Bool) (r : FaceRecord)
    (x1 y1 x2 y2 : Rat)
    (hscore : truthy face.det_score = true)
    (hbbox : face.bbox = some (x1, y1, x2, y2))
    (h : serializeFace face rfd rlm = .ok r) :
    r.size = some (truncToInt (x2 - x1)) := by
  obtain ⟨d2, hD, hF⟩ := serializeFace_ok_chain face rfd rlm r h
  obtain ⟨_, _, hs⟩ := updateDet_truthy_fields face rlm _ d2 x1 y1 x2 y2 hscore hbbox hD
  obtain ⟨_, _, hsF, _, _, _, _⟩ := updateFaceData_ok_keeps face rfd _ r hF
  obtain ⟨_, _, hsM, _, _, _⟩ := updateMask_keeps face d2
  simp_all

/-- Concrete face for the C7 witness: Scenario A's detected face, score
0.95 and bbox `[10, 10, 50, 60]`. -/
def c7face : Face :=
  { num_det := 0, det_score := some 0.95, bbox := some (10, 10, 50, 60),
    landmark := none, gender := none, age := none, mask_prob := none,
    embedding := none, facedata := none }

/-- The record `serialize_face` produces for `c7face`. -/
def c7rec : FaceRecord :=
  { det := 0, prob := some 0.95, bbox := some [10, 10, 50, 60], size := some 40,
    landmarks := none, gender := none, age := none, mask_prob := none,
    norm := none, vec := none, facedata := none }

/-- Witness for C7: score 0.95 with bbox `[10, 10, 50, 60]` yields
`size == 40`. -/
theorem serialize_face_size_witness :
    truthy c7face.det_score = true ∧ c7face.bbox = some (10, 10, 50, 60) ∧
    serializeFace c7face false false = .ok c7rec ∧ c7rec.size = some 40 := by
  refine ⟨by with_unfolding_all decide, rfl, by with_unfolding_all rfl, ?_⟩
  have h := serialize_face_size c7face false false c7rec 10 10 50 60
    (by with_unfolding_all decide) rfl (by with_unfolding_all rfl)
  rw [h]
  with_unfolding_all decide

/-- Claim C9: `serialize_face` tests optional attributes by Python
truthiness, not presence: a detection score equal to `0` suppresses
`prob`, `bbox`, `size`, `landmarks` even though a box exists and
landmarks were requested; an embedding norm equal to `0` suppresses `vec`
and `norm`; a mask probability equal to `0` suppresses `mask_prob`. -/
theorem serialize_face_truthiness (face : Face) (rfd rlm : Bool) (r : FaceRecord)
    (h : serializeFace face rfd rlm = .ok r) :
    (face.det_score = some 0 →
      r.prob = none ∧ r.bbox = none ∧ r.size = none ∧ r.landmarks = none) ∧
    (∀ v : List Rat, face.embedding = some (v, 0) → r.vec = none ∧ r.norm = none) ∧
    (face.mask_prob = some 0 → r.mask_prob = none) := by
  obtain ⟨d2, hD, hF⟩ := serializeFace_ok_chain face rfd rlm r h
  refine ⟨fun hscore => ?_, fun v hemb => ?_, fun hmask => ?_⟩
  · have ht : truthy face.det_score = false := by
      rw [hscore]
      simp [truthy]
    rw [updateDet_not_truthy face rlm _ ht] at hD
    obtain rfl : updateEmbedding face (initRecord face) = d2 := by
      cases hD
      rfl
    obtain ⟨hp, hb, hs, hl, _, _, _⟩ := updateFaceData_ok_keeps face rfd _ r hF
    obtain ⟨mp, mb, ms, ml, _, _⟩ :=
      updateMask_keeps face (updateEmbedding face (initRecord face))
    obtain ⟨ep, eb, es, el, _⟩ := updateEmbedding_keeps face (initRecord face)
    refine ⟨?_, ?_, ?_, ?_⟩ <;> simp_all [initRecord]
  · rw [updateEmbedding_zero_norm face _ v hemb] at hD
    obtain ⟨_, _, _, _, hvF, hnF, _⟩ := updateFaceData_ok_keeps face rfd _ r hF
    obtain ⟨_, _, _, _, hvM, hnM⟩ := updateMask_keeps face d2
    obtain ⟨hvD, hnD, _⟩ := updateDet_ok_keeps face rlm _ d2 hD
    constructor <;> simp_all [initRecord]
  · rw [updateMask_zero face d2 hmask] at hF
    obtain ⟨_, _, _, _, _, _, hmF⟩ := updateFaceData_ok_keeps face rfd _ r hF
    obtain ⟨_, _, hmD⟩ := updateDet_ok_keeps face rlm _ d2 hD
    obtain ⟨_, _, _, _, emp⟩ := updateEmbedding_keeps face (initRecord face)
    simp_all [initRecord]

/-- Concrete face for the C9 witness: score exactly 0 with a box and
landmarks present, embedding with norm 0, mask probability 0. -/
def c9face : Face :=
  { num_det := 0, det_score := some 0, bbox := some (10, 10, 50, 60),
    landmark := some [(1, 2), (3, 4), (5, 6), (7, 8), (9, 10)],
    gender := none, age := none, mask_prob := some 0,
    embedding := some ([1, 2], 0), facedata := none }

/-- The record `serialize_face` produces for `c9face` with landmarks
requested. -/
def c9rec : FaceRecord :=
  { det := 0, prob := none, bbox := none, size := none, landmarks := none,
    gender := none, age := none, mask_prob := none, norm := none,
    vec := none, facedata := none }

/-- Witness for C9: all three zero-valued attributes are suppressed even
with landmarks requested. -/
theorem serialize_face_truthiness_witness :
    serializeFace c9face false true = .ok c9rec ∧
    (c9rec.prob = none ∧ c9rec.bbox = none ∧ c9rec.size = none ∧
      c9rec.landmarks = none) ∧
    (c9rec.vec = none ∧ c9rec.norm = none) ∧ c9rec.mask_prob = none := by
  have h := serialize_face_truthiness c9face false true c9rec (by with_unfolding_all rfl)
  exact ⟨by with_unfolding_all rfl, h.1 rfl, h.2.1 [1, 2] rfl, h.2.2 rfl⟩

/-- If the embed-crops loop stops on an exception, the items accumulated
so far number strictly fewer than the accumulator plus the remaining
inputs: the remaining work was aborted. -/
lemma embedCropsLoop_error_length :
    ∀ (images : List ImageInput) (stream : List (Except String Face))
      (acc : List CropItem),
      ((embedCropsLoop images stream acc).2).isSome = true →
      ((embedCropsLoop images stream acc).1).length < acc.length + images.length := by
  intro images
  induction images with
  | nil =>
    intro stream acc h
    simp [embedCropsLoop] at h
  | cons img rest ih =>
    intro stream acc h
    obtain ⟨tb?, d⟩ := img
    rcases tb? with _ | tb
    · rcases stream with _ | ⟨e, stream'⟩
      · simp only [embedCropsLoop] at h ⊢
        simp [List.length_cons]
      · rcases e with tb | face
        · simp only [embedCropsLoop] at h ⊢
          simp [List.length_cons]
        · rcases hsf : serializeFace face false false with tb | r
          · simp only [embedCropsLoop, hsf] at h ⊢
            simp [List.length_cons]
          · simp only [embedCropsLoop, hsf] at h ⊢
            have := ih stream' (acc ++ [CropItem.record r]) h
            simp only [List.length_append, List.length_cons, List.length_nil] at this ⊢
            omega
    · simp only [embedCropsLoop] at h ⊢
      have := ih stream (acc ++ [CropItem.failedImage tb]) h
      simp only [List.length_append, List.length_cons, List.length_nil] at this ⊢
      omega

/-- Claim C8: in the embedding-only path, a single exception anywhere
while consuming the inputs or the lazy analyzed-face stream turns the
entire result into one failure: top-level status `failed` with the
captured trace, the data list truncated to the items finished before the
exception — strictly shorter than the input list, so the remaining work
was aborted rather than marked per item. -/
theorem embed_crops_whole_batch_abort (pf : List Face → List (Except String Face))
    (images : List ImageInput) (tb : String)
    (herr : (embedCropsLoop images (pf (iterateFaces images)) []).2 = some tb) :
    (embedCrops pf images).status = "failed" ∧
    (embedCrops pf images).traceback = some tb ∧
    (embedCrops pf images).data = (embedCropsLoop images (pf (iterateFaces images)) []).1 ∧
    (embedCrops pf images).data.length < images.length := by
  have hlen := embedCropsLoop_error_length images (pf (iterateFaces images)) []
    (by rw [herr]; rfl)
  rcases hL : embedCropsLoop images (pf (iterateFaces images)) [] with ⟨items, err⟩
  rw [hL] at herr hlen
  obtain rfl : err = some tb := herr
  simp only [embedCrops]
  rw [hL]
  simp only [List.length_nil, Nat.zero_add] at hlen
  exact ⟨rfl, rfl, rfl, hlen⟩

/-- Witness for C8: one loadable image but an empty analyzed-face stream,
so `next(faces)` raises `StopIteration` and the whole batch fails. -/
theorem embed_crops_whole_batch_abort_witness :
    (embedCrops (fun _ => []) [{ traceback := none, data := some "img0" }]).status = "failed" ∧
    (embedCrops (fun _ => []) [{ traceback := none, data := some "img0" }]).traceback =
      some "StopIteration" ∧
    (embedCrops (fun _ => []) [{ traceback := none, data := some "img0" }]).data =
      (embedCropsLoop [{ traceback := none, data := some "img0" }]
        ((fun _ => []) (iterateFaces [{ traceback := none, data := some "img0" }])) []).1 ∧
    (embedCrops (fun _ => []) [{ traceback := none, data := some "img0" }]).data.length <
      ([{ traceback := none, data := some "img0" }] : List ImageInput).length :=
  embed_crops_whole_batch_abort (fun _ => [])
    [{ traceback := none, data := some "img0" }] "StopIteration" rfl

end IFR
